import Mathlib

/-!
Verification of the trading-date resolution logic of the Stock-Prediction
repository.

Modelling conventions:

* A Python `datetime.date` value is represented in two equivalent ways.
  For parsing and formatting (`strptime`, `isoformat`) we use the `Ymd`
  structure holding the year, month and day fields, exactly as a Python
  `date` object stores them.  For calendar arithmetic (comparison,
  `+ timedelta(days=k)`, `weekday()`) we use the proleptic Gregorian
  ordinal of the date (the value of Python `date.toordinal()`, a `Nat`):
  `date + timedelta(days=k)` is ordinal addition by `k`, date comparison
  is `Nat` comparison of ordinals, and `date.weekday()` is
  `(ordinal + 6) % 7` (ordinal 1 is 0001-01-01, a Monday, and
  `weekday()` returns 0 for Monday).
* `pandas` data frames enter the resolution functions only through
  `df.index[0].date()` and `df.index[-1].date()`, so the embedding takes
  those two dates (as ordinals) directly.
* Python exceptions raised by the resolution functions are modelled as
  `Except` error results; each exception class of the source becomes a
  constructor carrying the same payload the exception constructor takes.
* The ambient value of `dt.datetime.now().date()` is passed to the
  embedded `get_prediction_date` functions as an explicit `now` argument:
  it stands for whatever the hidden global clock returned in one
  particular run.
-/

deriving instance DecidableEq for Except

namespace StockPrediction

/-- A calendar date as stored by a Python `datetime.date`: year, month
and day fields. -/
structure Ymd where
  year : Nat
  month : Nat
  day : Nat
deriving DecidableEq, Repr

/-- Gregorian leap-year test, as in Python `calendar.isleap`. -/
def isLeap (y : Nat) : Bool :=
  (y % 4 == 0 && y % 100 != 0) || y % 400 == 0

/-- Number of days in a month of a given year (Python
`calendar.monthrange`, used by `datetime.date` to validate the day
field). -/
def daysInMonth (y m : Nat) : Nat :=
  if m = 2 then (if isLeap y then 29 else 28)
  else if m = 4 ∨ m = 6 ∨ m = 9 ∨ m = 11 then 30
  else 31

/-- Days in year `y` strictly before month `m` (the `_days_before_month`
table of CPython `datetime`). -/
def daysBeforeMonth (y m : Nat) : Nat :=
  let l := if isLeap y then 1 else 0
  match m with
  | 1 => 0
  | 2 => 31
  | 3 => 59 + l
  | 4 => 90 + l
  | 5 => 120 + l
  | 6 => 151 + l
  | 7 => 181 + l
  | 8 => 212 + l
  | 9 => 243 + l
  | 10 => 273 + l
  | 11 => 304 + l
  | _ => 334 + l

/-- The proleptic Gregorian ordinal of a date: Python
`date.toordinal()`, with 0001-01-01 having ordinal 1. -/
def toOrdinal (v : Ymd) : Nat :=
  365 * (v.year - 1) + (v.year - 1) / 4 - (v.year - 1) / 100 + (v.year - 1) / 400 +
    daysBeforeMonth v.year v.month + v.day

/-- Python `date.weekday()` on an ordinal: 0 is Monday, ..., 5 is
Saturday, 6 is Sunday. -/
def weekday (o : Nat) : Nat :=
  (o + 6) % 7

/-- A date is valid exactly when the CPython `datetime.date`
constructor accepts its fields (`MINYEAR = 1`, `MAXYEAR = 9999`). -/
def validYmd (v : Ymd) : Prop :=
  1 ≤ v.year ∧ v.year ≤ 9999 ∧ 1 ≤ v.month ∧ v.month ≤ 12 ∧
    1 ≤ v.day ∧ v.day ≤ daysInMonth v.year v.month

instance (v : Ymd) : Decidable (validYmd v) := by
  unfold validYmd; infer_instance

/-! ### Model of CPython `datetime.strptime(s, "%Y-%m-%d")`

CPython `_strptime` compiles the format into the anchored regular
expression `(\d\d\d\d)-(1[0-2]|0[1-9]|[1-9])-(3[01]|[12]\d|0[1-9]|[1-9])`,
matches it at the start of the input, raises `ValueError` when the match
fails or when unconverted data remains, and finally builds
`datetime.date(year, month, day)`, which validates the field ranges.
The parser below follows that regular expression alternative by
alternative, including the backtracking forced by the literal `-`
following the month field. -/

/-- True for an ASCII digit character (regex `\d`). -/
def isDigitChar (c : Char) : Prop :=
  48 ≤ c.toNat ∧ c.toNat ≤ 57

instance (c : Char) : Decidable (isDigitChar c) := by
  unfold isDigitChar; infer_instance

/-- True for a nonzero ASCII digit character (regex `[1-9]`). -/
def isDigit19 (c : Char) : Prop :=
  49 ≤ c.toNat ∧ c.toNat ≤ 57

instance (c : Char) : Decidable (isDigit19 c) := by
  unfold isDigit19; infer_instance

/-- Numeric value of an ASCII digit character. -/
def digitVal (c : Char) : Nat :=
  c.toNat - 48

/-- Regex fragment `(\d\d\d\d)` for `%Y`: exactly four digits. -/
def parseY : List Char → Option (Nat × List Char)
  | a :: b :: c :: e :: rest =>
    if isDigitChar a ∧ isDigitChar b ∧ isDigitChar c ∧ isDigitChar e then
      some (1000 * digitVal a + 100 * digitVal b + 10 * digitVal c + digitVal e, rest)
    else none
  | _ => none

/-- The literal `-` of the format string. -/
def parseDash : List Char → Option (List Char)
  | '-' :: rest => some rest
  | _ => none

/-- Regex fragment `(1[0-2]|0[1-9]|[1-9])` for `%m`, including the
backtracking forced by the literal `-` that follows it: a two-character
alternative only succeeds when a `-` comes next, otherwise the engine
falls back to the one-character alternative.  The `-` is left
unconsumed. -/
def parseM : List Char → Option (Nat × List Char)
  | '1' :: '0' :: '-' :: rest => some (10, '-' :: rest)
  | '1' :: '1' :: '-' :: rest => some (11, '-' :: rest)
  | '1' :: '2' :: '-' :: rest => some (12, '-' :: rest)
  | '0' :: c :: '-' :: rest =>
    if isDigit19 c then some (digitVal c, '-' :: rest) else none
  | c :: '-' :: rest =>
    if isDigit19 c then some (digitVal c, '-' :: rest) else none
  | _ => none

/-- Regex fragment `(3[01]|[12]\d|0[1-9]|[1-9])` for `%d`, alternatives
tried in order; it is the last fragment, so no literal follows and the
first matching alternative wins (`strptime` then rejects the input when
characters remain unconsumed). -/
def parseD : List Char → Option (Nat × List Char)
  | '3' :: '0' :: rest => some (30, rest)
  | '3' :: '1' :: rest => some (31, rest)
  | '1' :: c :: rest =>
    if isDigitChar c then some (10 + digitVal c, rest) else some (1, c :: rest)
  | '2' :: c :: rest =>
    if isDigitChar c then some (20 + digitVal c, rest) else some (2, c :: rest)
  | '0' :: c :: rest =>
    if isDigit19 c then some (digitVal c, rest) else none
  | c :: rest =>
    if isDigit19 c then some (digitVal c, rest) else none
  | [] => none

/-- `datetime.strptime(s, "%Y-%m-%d").date()` on the character list of
the input: regex match, no unconverted data, then `date(y, m, d)` field
validation (year at least `MINYEAR = 1`; the month range is already
enforced by the regex; the day must exist in the month). -/
def strptimeChars (s : List Char) : Option Ymd :=
  (parseY s).bind fun ys =>
    (parseDash ys.2).bind fun s2 =>
      (parseM s2).bind fun ms =>
        (parseDash ms.2).bind fun s4 =>
          (parseD s4).bind fun ds =>
            if ds.2 = [] ∧ 1 ≤ ys.1 ∧ 1 ≤ ds.1 ∧ ds.1 ≤ daysInMonth ys.1 ms.1 then
              some ⟨ys.1, ms.1, ds.1⟩
            else none

/-- `datetime.strptime(s, "%Y-%m-%d").date()` on a string. -/
def strptime (s : String) : Option Ymd :=
  strptimeChars s.data

/-- ASCII digit character for a digit value. -/
def digitChar (n : Nat) : Char :=
  Char.ofNat (48 + n)

/-- Two-digit zero-padded decimal rendering (`%02d`). -/
def pad2chars (n : Nat) : List Char :=
  [digitChar (n / 10 % 10), digitChar (n % 10)]

/-- Four-digit zero-padded decimal rendering (`%04d`). -/
def pad4chars (n : Nat) : List Char :=
  [digitChar (n / 1000 % 10), digitChar (n / 100 % 10), digitChar (n / 10 % 10),
    digitChar (n % 10)]

/-- Python `date.isoformat()` (also `str(date)`): the `YYYY-MM-DD`
zero-padded rendering of the date. -/
def isoformat (v : Ymd) : String :=
  ⟨pad4chars v.year ++ '-' :: (pad2chars v.month ++ '-' :: pad2chars v.day)⟩

end StockPrediction

namespace StockPrediction.UtilsUtils

/-- Errors that can escape the date functions of `src/utils/utils.py`:
the `InvalidPredictionDateError` class defined there (payload
`pred_date, df_last_date`), and the builtin `ValueError` that
`dt.datetime.strptime` raises on a malformed string, which
`get_date_from_string` in this file does not catch. -/
inductive Err where
  | invalidPredictionDate (predDate dfLastDate : Nat)
  | valueError (input : String)
deriving DecidableEq, Repr

/-- `get_date_from_string` of `src/utils/utils.py`: bare
`dt.datetime.strptime(date, "%Y-%m-%d").date()`; a parse failure
escapes as the builtin `ValueError`. -/
def get_date_from_string (date : String) : Except Err Ymd :=
  match strptime date with
  | some v => .ok v
  | none => .error (.valueError date)

/-- `get_correct_pred_date` of `src/utils/utils.py` (lines 60-81), on
date ordinals. -/
def get_correct_pred_date (predDate dfLastDate : Nat) : Except Err Nat :=
  if weekday dfLastDate = 4 then
    if predDate = dfLastDate + 1 then .ok (predDate + 2)
    else if predDate = dfLastDate + 2 then .ok (predDate + 1)
    else if predDate > dfLastDate + 3 then
      .error (.invalidPredictionDate predDate dfLastDate)
    else .ok predDate
  else if dfLastDate < predDate - 1 then
    .error (.invalidPredictionDate predDate dfLastDate)
  else .ok predDate

/-- `get_prediction_date` of `src/utils/utils.py` (lines 49-57).  The
data frame enters only through `df.index[-1].date()`, passed here as
`dfLastDate`; `now` is the value `dt.datetime.now().date()` returned in
the run being described. -/
def get_prediction_date (now dfLastDate : Nat) (date : Option String) : Except Err Nat :=
  match date with
  | none => get_correct_pred_date now dfLastDate
  | some s =>
    match get_date_from_string s with
    | .ok v => get_correct_pred_date (toOrdinal v) dfLastDate
    | .error e => .error e

end StockPrediction.UtilsUtils

namespace StockPrediction.KerasModelsUtils

/-- Errors raised by the date functions of
`src/model/keras_models/utils.py`: its `InvalidPredictionDateError`
class (payload `pred_date, df_date, seq_len, lower`) and its
`InvalidDateError` class (payload the offending string), the latter
raised by `get_date_from_string` in place of the `ValueError` it
catches. -/
inductive Err where
  | invalidPredictionDate (predDate dfDate seqLen : Nat) (lower : Bool)
  | invalidDate (date : String)
deriving DecidableEq, Repr

/-- `get_date_from_string` of `src/model/keras_models/utils.py` (lines
8-12): `strptime`, with `ValueError` caught and re-raised as
`InvalidDateError(date)`. -/
def get_date_from_string (date : String) : Except Err Ymd :=
  match strptime date with
  | some v => .ok v
  | none => .error (.invalidDate date)

/-- The weekend adjustment of `get_correct_pred_date` in
`src/model/keras_models/utils.py` (lines 45-51): a Saturday moves 2
days forward, a Sunday 1 day forward, any other day is unchanged. -/
def weekendSnap (predDate : Nat) : Nat :=
  if weekday predDate = 5 then predDate + 2
  else if weekday predDate = 6 then predDate + 1
  else predDate

/-- `get_correct_pred_date` of `src/model/keras_models/utils.py` (lines
27-52), on date ordinals: lower-bound check driven by `seq_len`, then
the upper-bound check (Friday special case), then the weekend
adjustment applied to the surviving candidate. -/
def get_correct_pred_date (predDate dfFirstDate dfLastDate seqLen : Nat) : Except Err Nat :=
  if dfFirstDate + seqLen > predDate then
    .error (.invalidPredictionDate predDate dfFirstDate seqLen true)
  else if weekday dfLastDate = 4 then
    if predDate > dfLastDate + 3 then
      .error (.invalidPredictionDate predDate dfLastDate seqLen false)
    else .ok (weekendSnap predDate)
  else if dfLastDate < predDate - 1 then
    .error (.invalidPredictionDate predDate dfLastDate seqLen false)
  else .ok (weekendSnap predDate)

/-- `get_prediction_date` of `src/model/keras_models/utils.py` (lines
15-24).  The data frame enters only through `df.index[0].date()` and
`df.index[-1].date()`; `now` is the value `dt.datetime.now().date()`
returned in the run being described. -/
def get_prediction_date (now dfFirstDate dfLastDate seqLen : Nat)
    (date : Option String) : Except Err Nat :=
  match date with
  | none => get_correct_pred_date now dfFirstDate dfLastDate seqLen
  | some s =>
    match get_date_from_string s with
    | .ok v => get_correct_pred_date (toOrdinal v) dfFirstDate dfLastDate seqLen
    | .error e => .error e

/-- The `earliest allowed` date named in the message of the
lower-bound `InvalidPredictionDateError` of
`src/model/keras_models/utils.py` (line 58): for a `lower = True`
error with payload `df_date` and `seq_len`, the message computes
`df_date + dt.timedelta(days=seq_len)`. -/
def Err.earliestAllowed : Err → Option Nat
  | .invalidPredictionDate _ dfDate seqLen true => some (dfDate + seqLen)
  | _ => none

end StockPrediction.KerasModelsUtils

namespace StockPrediction

/-! ### Helper lemmas -/

theorem weekday_add (o n : Nat) : weekday (o + n) = (weekday o + n) % 7 := by
  unfold weekday
  omega

theorem isDigitChar_digitChar (n : Nat) (h : n < 10) : isDigitChar (digitChar n) := by
  interval_cases n <;> decide

theorem digitVal_digitChar (n : Nat) (h : n < 10) : digitVal (digitChar n) = n := by
  interval_cases n <;> decide

theorem parseY_pad4 (y : Nat) (rest : List Char) (hy : y ≤ 9999) :
    parseY (pad4chars y ++ rest) = some (y, rest) := by
  have h1 : y / 1000 % 10 < 10 := Nat.mod_lt _ (by norm_num)
  have h2 : y / 100 % 10 < 10 := Nat.mod_lt _ (by norm_num)
  have h3 : y / 10 % 10 < 10 := Nat.mod_lt _ (by norm_num)
  have h4 : y % 10 < 10 := Nat.mod_lt _ (by norm_num)
  simp only [pad4chars, List.cons_append, List.nil_append, parseY]
  rw [if_pos ⟨isDigitChar_digitChar _ h1, isDigitChar_digitChar _ h2,
    isDigitChar_digitChar _ h3, isDigitChar_digitChar _ h4⟩]
  rw [digitVal_digitChar _ h1, digitVal_digitChar _ h2, digitVal_digitChar _ h3,
    digitVal_digitChar _ h4]
  have hval : 1000 * (y / 1000 % 10) + 100 * (y / 100 % 10) + 10 * (y / 10 % 10) + y % 10 = y := by
    omega
  rw [hval]

theorem parseM_pad2 (m : Nat) (rest : List Char) (h1 : 1 ≤ m) (h2 : m ≤ 12) :
    parseM (pad2chars m ++ '-' :: rest) = some (m, '-' :: rest) := by
  interval_cases m <;> rfl

theorem parseD_pad2 (d : Nat) (h1 : 1 ≤ d) (h2 : d ≤ 31) :
    parseD (pad2chars d) = some (d, []) := by
  interval_cases d <;> rfl

theorem parseDash_cons (rest : List Char) : parseDash ('-' :: rest) = some rest :=
  rfl

theorem daysInMonth_le_31 (y m : Nat) : daysInMonth y m ≤ 31 := by
  unfold daysInMonth
  split <;> [split <;> omega; split <;> omega]

theorem strptime_isoformat (v : Ymd) (hv : validYmd v) : strptime (isoformat v) = some v := by
  obtain ⟨y, m, d⟩ := v
  obtain ⟨hy1, hy2, hm1, hm2, hd1, hd2⟩ := hv
  have hd31 : d ≤ 31 := le_trans hd2 (daysInMonth_le_31 y m)
  have e1 := parseY_pad4 y ('-' :: (pad2chars m ++ '-' :: pad2chars d)) hy2
  have e2 := parseM_pad2 m (pad2chars d) hm1 hm2
  have e3 := parseD_pad2 d hd1 hd31
  show strptimeChars (pad4chars y ++ '-' :: (pad2chars m ++ '-' :: pad2chars d)) = some ⟨y, m, d⟩
  simp only [strptimeChars, e1, Option.some_bind, parseDash_cons, e2, e3]
  exact if_pos ⟨trivial, hy1, hd1, hd2⟩

/-! ### Claim C7 -/

/-- Claim C7: for every valid `YYYY-MM-DD` string (the zero-padded ISO
rendering of a valid calendar date), both `get_date_from_string`
implementations succeed, and the ISO formatting of the returned
calendar date reproduces the input string exactly. -/
theorem c7_parse_roundtrip (y m d : Nat) (hy1 : 1 ≤ y) (hy2 : y ≤ 9999) (hm1 : 1 ≤ m)
    (hm2 : m ≤ 12) (hd1 : 1 ≤ d) (hd2 : d ≤ daysInMonth y m) :
    ∃ v : Ymd, KerasModelsUtils.get_date_from_string (isoformat ⟨y, m, d⟩) = .ok v ∧
      UtilsUtils.get_date_from_string (isoformat ⟨y, m, d⟩) = .ok v ∧
      isoformat v = isoformat ⟨y, m, d⟩ := by
  have hv : validYmd ⟨y, m, d⟩ := ⟨hy1, hy2, hm1, hm2, hd1, hd2⟩
  refine ⟨⟨y, m, d⟩, ?_, ?_, rfl⟩
  · unfold KerasModelsUtils.get_date_from_string
    rw [strptime_isoformat _ hv]
  · unfold UtilsUtils.get_date_from_string
    rw [strptime_isoformat _ hv]

/-- Witness for C7 at the concrete date 2023-12-31. -/
theorem c7_witness :
    ∃ v : Ymd, KerasModelsUtils.get_date_from_string (isoformat ⟨2023, 12, 31⟩) = .ok v ∧
      UtilsUtils.get_date_from_string (isoformat ⟨2023, 12, 31⟩) = .ok v ∧
      isoformat v = isoformat ⟨2023, 12, 31⟩ :=
  c7_parse_roundtrip 2023 12 31 (by decide) (by decide) (by decide) (by decide) (by decide)
    (by decide)

/-! ### Claim C6 -/

/-- Claim C6 counterexample: the string `2024-1-5` is not an exact
`YYYY-MM-DD` match (the exact rendering of that date is `2024-01-05`),
yet `get_date_from_string` accepts it, because CPython
`strptime(%Y-%m-%d)` also matches one-digit month and day fields.  So
the parser does a loose parse, not an exact-format match. -/
theorem c6_counterexample :
    KerasModelsUtils.get_date_from_string "2024-1-5" = .ok ⟨2024, 1, 5⟩ ∧
    isoformat ⟨2024, 1, 5⟩ = "2024-01-05" ∧ "2024-1-5" ≠ "2024-01-05" := by
  refine ⟨by rfl, by rfl, by decide⟩

/-- Claim C6 as amended: malformed strings (wrong separators,
non-numeric fields, month 13, day 32, leading or trailing garbage) are
rejected; every string the `strptime` format does not accept fails, with
the typed `InvalidDateError` in the keras implementation and with the
builtin `ValueError` in the utils implementation.  (The parser is not an
exact-format matcher, however: see the counterexample.) -/
theorem c6_malformed_rejected :
    (∀ s : String, strptime s = none →
      KerasModelsUtils.get_date_from_string s = .error (.invalidDate s) ∧
      UtilsUtils.get_date_from_string s = .error (.valueError s)) ∧
    strptime "2024/01/05" = none ∧ strptime "2024-13-01" = none ∧
    strptime "2024-01-32" = none ∧ strptime "2024-01-05x" = none ∧
    strptime "x2024-01-05" = none ∧ strptime "2024-02-30" = none ∧
    strptime "abcd-ef-gh" = none ∧ strptime "" = none := by
  refine ⟨?_, by decide, by decide, by decide, by decide, by decide, by decide, by decide,
    by decide⟩
  intro s h
  constructor
  · unfold KerasModelsUtils.get_date_from_string
    rw [h]
  · unfold UtilsUtils.get_date_from_string
    rw [h]

/-- Witness for C6 at the concrete malformed string `2024-13-01`. -/
theorem c6_witness :
    KerasModelsUtils.get_date_from_string "2024-13-01" = .error (.invalidDate "2024-13-01") ∧
    UtilsUtils.get_date_from_string "2024-13-01" = .error (.valueError "2024-13-01") :=
  c6_malformed_rejected.1 "2024-13-01" (by decide)

/-! ### Resolver helper lemmas -/

theorem kerasGCPD_ok_snap (pred firstD lastD sl r : Nat)
    (h : KerasModelsUtils.get_correct_pred_date pred firstD lastD sl = .ok r) :
    r = KerasModelsUtils.weekendSnap pred := by
  unfold KerasModelsUtils.get_correct_pred_date at h
  split_ifs at h
  all_goals first
    | exact Except.noConfusion h
    | (injection h with h; exact h.symm)

theorem weekendSnap_eq (pred : Nat) :
    (weekday pred = 5 → KerasModelsUtils.weekendSnap pred = pred + 2) ∧
    (weekday pred = 6 → KerasModelsUtils.weekendSnap pred = pred + 1) ∧
    (weekday pred ≠ 5 → weekday pred ≠ 6 → KerasModelsUtils.weekendSnap pred = pred) := by
  unfold KerasModelsUtils.weekendSnap
  refine ⟨fun h => by rw [if_pos h], fun h => ?_, fun h5 h6 => by rw [if_neg h5, if_neg h6]⟩
  rw [if_neg (by unfold weekday at *; omega), if_pos h]

/-! ### Claim C1 -/

/-- Claim C1 counterexample: in the utils implementation a Saturday
candidate can pass the bound checks without being advanced to the
following Monday.  With `df_last_date` = Thursday 2024-01-04, the
candidate Saturday 2023-12-30 passes the upper-bound check (it is not
later than `df_last_date + 1`) and is returned unchanged, still a
Saturday, so the claimed universal weekend snap fails on this
implementation. -/
theorem c1_counterexample :
    UtilsUtils.get_correct_pred_date (toOrdinal ⟨2023, 12, 30⟩) (toOrdinal ⟨2024, 1, 4⟩) =
      .ok (toOrdinal ⟨2023, 12, 30⟩) ∧
    weekday (toOrdinal ⟨2023, 12, 30⟩) = 5 ∧
    toOrdinal ⟨2023, 12, 30⟩ ≠ toOrdinal ⟨2023, 12, 30⟩ + 2 := by
  refine ⟨by decide, by decide, by omega⟩

/-- Claim C1 as amended: in the keras implementation every candidate
that passes the bound checks is weekend-snapped (Saturday advanced by 2
days, Sunday by 1 day, weekdays unchanged); in the utils implementation
the snap applies exactly to the Saturday and Sunday immediately after a
Friday `df_last_date` (both land on the following Monday), while every
other candidate that passes the bound checks -- weekend or not -- is
returned unchanged: any successful utils resolution is either one of
those two Friday cases or returns the candidate itself.  With
`df_last_date` = Friday 2024-01-05 and candidate Saturday 2024-01-06,
both implementations resolve to Monday 2024-01-08, which differs from
the request. -/
theorem c1_weekend_snap :
    (∀ pred firstD lastD sl r : Nat,
      KerasModelsUtils.get_correct_pred_date pred firstD lastD sl = .ok r →
      (weekday pred = 5 → r = pred + 2) ∧ (weekday pred = 6 → r = pred + 1) ∧
      (weekday pred ≠ 5 → weekday pred ≠ 6 → r = pred)) ∧
    (∀ lastD : Nat, weekday lastD = 4 →
      UtilsUtils.get_correct_pred_date (lastD + 1) lastD = .ok (lastD + 3) ∧
      UtilsUtils.get_correct_pred_date (lastD + 2) lastD = .ok (lastD + 3)) ∧
    (∀ pred lastD r : Nat, UtilsUtils.get_correct_pred_date pred lastD = .ok r →
      (weekday lastD = 4 ∧ pred = lastD + 1 ∧ r = pred + 2) ∨
      (weekday lastD = 4 ∧ pred = lastD + 2 ∧ r = pred + 1) ∨ r = pred) ∧
    KerasModelsUtils.get_correct_pred_date (toOrdinal ⟨2024, 1, 6⟩) (toOrdinal ⟨2023, 6, 1⟩)
      (toOrdinal ⟨2024, 1, 5⟩) 30 = .ok (toOrdinal ⟨2024, 1, 8⟩) ∧
    UtilsUtils.get_correct_pred_date (toOrdinal ⟨2024, 1, 6⟩) (toOrdinal ⟨2024, 1, 5⟩) =
      .ok (toOrdinal ⟨2024, 1, 8⟩) ∧
    toOrdinal ⟨2024, 1, 8⟩ ≠ toOrdinal ⟨2024, 1, 6⟩ := by
  refine ⟨?_, ?_, ?_, by decide, by decide, by decide⟩
  · intro pred firstD lastD sl r hok
    have hr := kerasGCPD_ok_snap pred firstD lastD sl r hok
    subst hr
    exact weekendSnap_eq pred
  · intro lastD h4
    constructor
    · unfold UtilsUtils.get_correct_pred_date
      rw [if_pos h4, if_pos rfl]
    · unfold UtilsUtils.get_correct_pred_date
      rw [if_pos h4, if_neg (by omega), if_pos rfl]
  · intro pred lastD r hok
    unfold UtilsUtils.get_correct_pred_date at hok
    by_cases hf : weekday lastD = 4
    · rw [if_pos hf] at hok
      by_cases h1 : pred = lastD + 1
      · rw [if_pos h1] at hok
        injection hok with hok
        exact Or.inl ⟨hf, h1, hok.symm⟩
      · rw [if_neg h1] at hok
        by_cases h2 : pred = lastD + 2
        · rw [if_pos h2] at hok
          injection hok with hok
          exact Or.inr (Or.inl ⟨hf, h2, hok.symm⟩)
        · rw [if_neg h2] at hok
          by_cases h3 : pred > lastD + 3
          · rw [if_pos h3] at hok
            exact Except.noConfusion hok
          · rw [if_neg h3] at hok
            injection hok with hok
            exact Or.inr (Or.inr hok.symm)
    · rw [if_neg hf] at hok
      by_cases hlt : lastD < pred - 1
      · rw [if_pos hlt] at hok
        exact Except.noConfusion hok
      · rw [if_neg hlt] at hok
        injection hok with hok
        exact Or.inr (Or.inr hok.symm)

/-- Witness for C1 at concrete inputs: the keras snap at Saturday
2024-01-06, the utils Friday-to-Monday snap at Friday 2024-01-05, and
the utils exclusivity clause at the Saturday candidate 2023-12-30 with
Thursday `df_last_date` 2024-01-04, which falls into the
returned-unchanged disjunct. -/
theorem c1_witness :
    toOrdinal ⟨2024, 1, 8⟩ = toOrdinal ⟨2024, 1, 6⟩ + 2 ∧
    UtilsUtils.get_correct_pred_date (toOrdinal ⟨2024, 1, 5⟩ + 1) (toOrdinal ⟨2024, 1, 5⟩) =
      .ok (toOrdinal ⟨2024, 1, 5⟩ + 3) ∧
    ((weekday (toOrdinal ⟨2024, 1, 4⟩) = 4 ∧
        toOrdinal ⟨2023, 12, 30⟩ = toOrdinal ⟨2024, 1, 4⟩ + 1 ∧
        toOrdinal ⟨2023, 12, 30⟩ = toOrdinal ⟨2023, 12, 30⟩ + 2) ∨
      (weekday (toOrdinal ⟨2024, 1, 4⟩) = 4 ∧
        toOrdinal ⟨2023, 12, 30⟩ = toOrdinal ⟨2024, 1, 4⟩ + 2 ∧
        toOrdinal ⟨2023, 12, 30⟩ = toOrdinal ⟨2023, 12, 30⟩ + 1) ∨
      toOrdinal ⟨2023, 12, 30⟩ = toOrdinal ⟨2023, 12, 30⟩) :=
  ⟨(c1_weekend_snap.1 (toOrdinal ⟨2024, 1, 6⟩) (toOrdinal ⟨2023, 6, 1⟩) (toOrdinal ⟨2024, 1, 5⟩)
      30 (toOrdinal ⟨2024, 1, 8⟩) (by decide)).1 (by decide),
   (c1_weekend_snap.2.1 (toOrdinal ⟨2024, 1, 5⟩) (by decide)).1,
   c1_weekend_snap.2.2.1 (toOrdinal ⟨2023, 12, 30⟩) (toOrdinal ⟨2024, 1, 4⟩)
     (toOrdinal ⟨2023, 12, 30⟩) (by decide)⟩

/-! ### Claim C2 -/

/-- Claim C2: when `df_last_date` is a Friday and the lower-bound check
(where present) passes, resolution fails if and only if the candidate is
strictly more than 3 calendar days past `df_last_date`, and the failure
is the upper-bound `InvalidPredictionDateError`; this holds in both
implementations. -/
theorem c2_friday_upper_bound :
    (∀ pred firstD lastD sl : Nat, weekday lastD = 4 → firstD + sl ≤ pred →
      ((∃ e, KerasModelsUtils.get_correct_pred_date pred firstD lastD sl = .error e) ↔
        pred > lastD + 3) ∧
      (pred > lastD + 3 → KerasModelsUtils.get_correct_pred_date pred firstD lastD sl =
        .error (.invalidPredictionDate pred lastD sl false))) ∧
    (∀ pred lastD : Nat, weekday lastD = 4 →
      ((∃ e, UtilsUtils.get_correct_pred_date pred lastD = .error e) ↔ pred > lastD + 3) ∧
      (pred > lastD + 3 → UtilsUtils.get_correct_pred_date pred lastD =
        .error (.invalidPredictionDate pred lastD))) := by
  constructor
  · intro pred firstD lastD sl h4 hlow
    unfold KerasModelsUtils.get_correct_pred_date
    rw [if_neg (by omega), if_pos h4]
    by_cases hgt : pred > lastD + 3
    · rw [if_pos hgt]
      exact ⟨⟨fun _ => hgt, fun _ => ⟨_, rfl⟩⟩, fun _ => rfl⟩
    · rw [if_neg hgt]
      refine ⟨⟨?_, fun h => absurd h hgt⟩, fun h => absurd h hgt⟩
      rintro ⟨e, he⟩
      exact Except.noConfusion he
  · intro pred lastD h4
    unfold UtilsUtils.get_correct_pred_date
    rw [if_pos h4]
    by_cases h1 : pred = lastD + 1
    · rw [if_pos h1]
      refine ⟨⟨?_, fun h => absurd h (by omega)⟩, fun h => absurd h (by omega)⟩
      rintro ⟨e, he⟩
      exact Except.noConfusion he
    · rw [if_neg h1]
      by_cases h2 : pred = lastD + 2
      · rw [if_pos h2]
        refine ⟨⟨?_, fun h => absurd h (by omega)⟩, fun h => absurd h (by omega)⟩
        rintro ⟨e, he⟩
        exact Except.noConfusion he
      · rw [if_neg h2]
        by_cases hgt : pred > lastD + 3
        · rw [if_pos hgt]
          exact ⟨⟨fun _ => hgt, fun _ => ⟨_, rfl⟩⟩, fun _ => rfl⟩
        · rw [if_neg hgt]
          refine ⟨⟨?_, fun h => absurd h hgt⟩, fun h => absurd h hgt⟩
          rintro ⟨e, he⟩
          exact Except.noConfusion he

/-- Witness for C2 at the spec example: `df_last_date` = Friday
2024-01-05, candidate Tuesday 2024-01-09 fails in both
implementations. -/
theorem c2_witness :
    UtilsUtils.get_correct_pred_date (toOrdinal ⟨2024, 1, 9⟩) (toOrdinal ⟨2024, 1, 5⟩) =
      .error (.invalidPredictionDate (toOrdinal ⟨2024, 1, 9⟩) (toOrdinal ⟨2024, 1, 5⟩)) ∧
    KerasModelsUtils.get_correct_pred_date (toOrdinal ⟨2024, 1, 9⟩) (toOrdinal ⟨2024, 1, 1⟩)
      (toOrdinal ⟨2024, 1, 5⟩) 1 =
      .error (.invalidPredictionDate (toOrdinal ⟨2024, 1, 9⟩) (toOrdinal ⟨2024, 1, 5⟩) 1 false) :=
  ⟨(c2_friday_upper_bound.2 (toOrdinal ⟨2024, 1, 9⟩) (toOrdinal ⟨2024, 1, 5⟩) (by decide)).2
     (by decide),
   (c2_friday_upper_bound.1 (toOrdinal ⟨2024, 1, 9⟩) (toOrdinal ⟨2024, 1, 1⟩)
     (toOrdinal ⟨2024, 1, 5⟩) 1 (by decide) (by decide)).2 (by decide)⟩

/-! ### Claim C3 -/

/-- Claim C3: when `df_last_date` is not a Friday and the lower-bound
check (where present) passes, resolution fails if and only if the
candidate is strictly later than `df_last_date + 1`, and the failure is
the upper-bound `InvalidPredictionDateError`; a candidate exactly at
`df_last_date + 1`, or exactly at the Friday-to-Monday boundary
`df_last_date + 3`, is always accepted, and no lower bound is tied to
`df_last_date` (every earlier candidate also passes the upper-bound
check).  This holds in both implementations. -/
theorem c3_next_day_upper_bound :
    (∀ pred firstD lastD sl : Nat, weekday lastD ≠ 4 → firstD + sl ≤ pred →
      ((∃ e, KerasModelsUtils.get_correct_pred_date pred firstD lastD sl = .error e) ↔
        pred > lastD + 1) ∧
      (pred > lastD + 1 → KerasModelsUtils.get_correct_pred_date pred firstD lastD sl =
        .error (.invalidPredictionDate pred lastD sl false))) ∧
    (∀ pred lastD : Nat, weekday lastD ≠ 4 →
      ((∃ e, UtilsUtils.get_correct_pred_date pred lastD = .error e) ↔ pred > lastD + 1) ∧
      (pred > lastD + 1 → UtilsUtils.get_correct_pred_date pred lastD =
        .error (.invalidPredictionDate pred lastD))) ∧
    (∀ firstD lastD sl : Nat, weekday lastD ≠ 4 → firstD + sl ≤ lastD + 1 →
      ∃ r, KerasModelsUtils.get_correct_pred_date (lastD + 1) firstD lastD sl = .ok r) ∧
    (∀ lastD : Nat, weekday lastD ≠ 4 →
      UtilsUtils.get_correct_pred_date (lastD + 1) lastD = .ok (lastD + 1)) ∧
    (∀ firstD lastD sl : Nat, weekday lastD = 4 → firstD + sl ≤ lastD + 3 →
      ∃ r, KerasModelsUtils.get_correct_pred_date (lastD + 3) firstD lastD sl = .ok r) ∧
    (∀ lastD : Nat, weekday lastD = 4 →
      UtilsUtils.get_correct_pred_date (lastD + 3) lastD = .ok (lastD + 3)) := by
  refine ⟨?_, ?_, ?_, ?_, ?_, ?_⟩
  · intro pred firstD lastD sl h4 hlow
    unfold KerasModelsUtils.get_correct_pred_date
    rw [if_neg (by omega), if_neg h4]
    by_cases hgt : pred > lastD + 1
    · rw [if_pos (by omega)]
      exact ⟨⟨fun _ => hgt, fun _ => ⟨_, rfl⟩⟩, fun _ => rfl⟩
    · rw [if_neg (by omega)]
      refine ⟨⟨?_, fun h => absurd h hgt⟩, fun h => absurd h hgt⟩
      rintro ⟨e, he⟩
      exact Except.noConfusion he
  · intro pred lastD h4
    unfold UtilsUtils.get_correct_pred_date
    rw [if_neg h4]
    by_cases hgt : pred > lastD + 1
    · rw [if_pos (by omega)]
      exact ⟨⟨fun _ => hgt, fun _ => ⟨_, rfl⟩⟩, fun _ => rfl⟩
    · rw [if_neg (by omega)]
      refine ⟨⟨?_, fun h => absurd h hgt⟩, fun h => absurd h hgt⟩
      rintro ⟨e, he⟩
      exact Except.noConfusion he
  · intro firstD lastD sl h4 hlow
    unfold KerasModelsUtils.get_correct_pred_date
    rw [if_neg (by omega), if_neg h4, if_neg (by omega)]
    exact ⟨_, rfl⟩
  · intro lastD h4
    unfold UtilsUtils.get_correct_pred_date
    rw [if_neg h4, if_neg (by omega)]
  · intro firstD lastD sl h4 hlow
    unfold KerasModelsUtils.get_correct_pred_date
    rw [if_neg (by omega), if_pos h4, if_neg (by omega)]
    exact ⟨_, rfl⟩
  · intro lastD h4
    unfold UtilsUtils.get_correct_pred_date
    rw [if_pos h4, if_neg (by omega), if_neg (by omega), if_neg (by omega)]

/-- Witness for C3 at concrete inputs: `df_last_date` = Wednesday
2024-01-10, the next-day candidate 2024-01-11 is accepted by the utils
implementation, and the Saturday candidate 2024-01-13 (more than one
day past `df_last_date`) fails. -/
theorem c3_witness :
    UtilsUtils.get_correct_pred_date (toOrdinal ⟨2024, 1, 10⟩ + 1) (toOrdinal ⟨2024, 1, 10⟩) =
      .ok (toOrdinal ⟨2024, 1, 10⟩ + 1) ∧
    UtilsUtils.get_correct_pred_date (toOrdinal ⟨2024, 1, 13⟩) (toOrdinal ⟨2024, 1, 10⟩) =
      .error (.invalidPredictionDate (toOrdinal ⟨2024, 1, 13⟩) (toOrdinal ⟨2024, 1, 10⟩)) ∧
    (∃ r, KerasModelsUtils.get_correct_pred_date (toOrdinal ⟨2024, 1, 10⟩ + 1)
      (toOrdinal ⟨2024, 1, 1⟩) (toOrdinal ⟨2024, 1, 10⟩) 5 = .ok r) :=
  ⟨c3_next_day_upper_bound.2.2.2.1 (toOrdinal ⟨2024, 1, 10⟩) (by decide),
   (c3_next_day_upper_bound.2.1 (toOrdinal ⟨2024, 1, 13⟩) (toOrdinal ⟨2024, 1, 10⟩)
     (by decide)).2 (by decide),
   c3_next_day_upper_bound.2.2.1 (toOrdinal ⟨2024, 1, 1⟩) (toOrdinal ⟨2024, 1, 10⟩) 5
     (by decide) (by decide)⟩

/-! ### Claim C4 -/

/-- Claim C4: the lower-bound check exists only in the implementation
parametrized by `seq_len` (the spec `min_lead_days`): there, whenever
`df_first_date + seq_len > pred_date` the resolution fails with the
lower-bound `InvalidPredictionDateError`, whose message names
`df_first_date + seq_len` as the earliest allowed date; in the utils
implementation there is no lower-bound parameter at all, and every
candidate that satisfies the upper-bound check is accepted, regardless
of the first date of the data window. -/
theorem c4_lower_bound :
    (∀ pred firstD lastD sl : Nat, firstD + sl > pred →
      KerasModelsUtils.get_correct_pred_date pred firstD lastD sl =
        .error (.invalidPredictionDate pred firstD sl true) ∧
      (KerasModelsUtils.Err.invalidPredictionDate pred firstD sl true).earliestAllowed =
        some (firstD + sl)) ∧
    (∀ pred lastD : Nat,
      (weekday lastD = 4 → pred ≤ lastD + 3) → (weekday lastD ≠ 4 → pred ≤ lastD + 1) →
      ∃ r, UtilsUtils.get_correct_pred_date pred lastD = .ok r) := by
  constructor
  · intro pred firstD lastD sl hlt
    constructor
    · unfold KerasModelsUtils.get_correct_pred_date
      rw [if_pos hlt]
    · rfl
  · intro pred lastD h4 hn4
    unfold UtilsUtils.get_correct_pred_date
    by_cases hf : weekday lastD = 4
    · rw [if_pos hf]
      by_cases h1 : pred = lastD + 1
      · rw [if_pos h1]
        exact ⟨_, rfl⟩
      · rw [if_neg h1]
        by_cases h2 : pred = lastD + 2
        · rw [if_pos h2]
          exact ⟨_, rfl⟩
        · rw [if_neg h2, if_neg (by have := h4 hf; omega)]
          exact ⟨_, rfl⟩
    · rw [if_neg hf, if_neg (by have := hn4 hf; omega)]
      exact ⟨_, rfl⟩

/-- Witness for C4 at the spec example: `df_first_date` = 2024-01-01,
`seq_len` = 10, candidate 2024-01-08 fails with an earliest allowed
date of 2024-01-11; and a utils candidate passing the upper-bound check
is accepted with no reference to any first date. -/
theorem c4_witness :
    (KerasModelsUtils.get_correct_pred_date (toOrdinal ⟨2024, 1, 8⟩) (toOrdinal ⟨2024, 1, 1⟩)
      (toOrdinal ⟨2024, 1, 31⟩) 10 =
      .error (.invalidPredictionDate (toOrdinal ⟨2024, 1, 8⟩) (toOrdinal ⟨2024, 1, 1⟩) 10 true) ∧
    (KerasModelsUtils.Err.invalidPredictionDate (toOrdinal ⟨2024, 1, 8⟩) (toOrdinal ⟨2024, 1, 1⟩)
      10 true).earliestAllowed = some (toOrdinal ⟨2024, 1, 1⟩ + 10)) ∧
    toOrdinal ⟨2024, 1, 1⟩ + 10 = toOrdinal ⟨2024, 1, 11⟩ ∧
    (∃ r, UtilsUtils.get_correct_pred_date (toOrdinal ⟨2024, 1, 8⟩) (toOrdinal ⟨2024, 1, 10⟩) =
      .ok r) :=
  ⟨c4_lower_bound.1 (toOrdinal ⟨2024, 1, 8⟩) (toOrdinal ⟨2024, 1, 1⟩) (toOrdinal ⟨2024, 1, 31⟩)
      10 (by decide),
   by decide,
   c4_lower_bound.2 (toOrdinal ⟨2024, 1, 8⟩) (toOrdinal ⟨2024, 1, 10⟩) (by decide) (by decide)⟩

/-! ### Claim C5 -/

theorem kerasGCPD_classify (pred firstD lastD sl : Nat) :
    (∃ d, KerasModelsUtils.get_correct_pred_date pred firstD lastD sl = .ok d) ∨
    (∃ p f n, KerasModelsUtils.get_correct_pred_date pred firstD lastD sl =
      .error (.invalidPredictionDate p f n true)) ∨
    (∃ p l n, KerasModelsUtils.get_correct_pred_date pred firstD lastD sl =
      .error (.invalidPredictionDate p l n false)) := by
  unfold KerasModelsUtils.get_correct_pred_date
  split_ifs
  all_goals first
    | exact Or.inl ⟨_, rfl⟩
    | exact Or.inr (Or.inl ⟨_, _, _, rfl⟩)
    | exact Or.inr (Or.inr ⟨_, _, _, rfl⟩)

theorem kerasGPD_classify (now firstD lastD sl : Nat) (date : Option String) :
    (∃ d, KerasModelsUtils.get_prediction_date now firstD lastD sl date = .ok d) ∨
    (∃ s, KerasModelsUtils.get_prediction_date now firstD lastD sl date =
      .error (.invalidDate s)) ∨
    (∃ p f n, KerasModelsUtils.get_prediction_date now firstD lastD sl date =
      .error (.invalidPredictionDate p f n true)) ∨
    (∃ p l n, KerasModelsUtils.get_prediction_date now firstD lastD sl date =
      .error (.invalidPredictionDate p l n false)) := by
  cases date with
  | none =>
    rcases kerasGCPD_classify now firstD lastD sl with ⟨d, hd⟩ | ⟨p, f, n, h⟩ | ⟨p, l, n, h⟩
    · exact Or.inl ⟨d, hd⟩
    · exact Or.inr (Or.inr (Or.inl ⟨p, f, n, h⟩))
    · exact Or.inr (Or.inr (Or.inr ⟨p, l, n, h⟩))
  | some s =>
    cases hs : strptime s with
    | none =>
      refine Or.inr (Or.inl ⟨s, ?_⟩)
      simp only [KerasModelsUtils.get_prediction_date, KerasModelsUtils.get_date_from_string, hs]
    | some v =>
      have hred : KerasModelsUtils.get_prediction_date now firstD lastD sl (some s) =
          KerasModelsUtils.get_correct_pred_date (toOrdinal v) firstD lastD sl := by
        simp only [KerasModelsUtils.get_prediction_date, KerasModelsUtils.get_date_from_string,
          hs]
      rw [hred]
      rcases kerasGCPD_classify (toOrdinal v) firstD lastD sl with
        ⟨d, hd⟩ | ⟨p, f, n, h⟩ | ⟨p, l, n, h⟩
      · exact Or.inl ⟨d, hd⟩
      · exact Or.inr (Or.inr (Or.inl ⟨p, f, n, h⟩))
      · exact Or.inr (Or.inr (Or.inr ⟨p, l, n, h⟩))

/-- Claim C5 counterexample: in the source the current date is NOT a
caller-supplied parameter; it is read from `dt.datetime.now()` inside
`get_prediction_date` when `date is None`.  Modelling the hidden clock
reading as the `now` value of one particular run: two runs whose
caller-visible arguments are identical (same data window, `date =
None`) but whose ambient clock readings differ (Thursday 2024-01-11
versus Saturday 2024-01-13, with data up to Wednesday 2024-01-10)
produce different outcomes, one success and one failure, so the
resolver output is not a function of the caller-supplied inputs
alone. -/
theorem c5_counterexample :
    UtilsUtils.get_prediction_date (toOrdinal ⟨2024, 1, 11⟩) (toOrdinal ⟨2024, 1, 10⟩) none =
      .ok (toOrdinal ⟨2024, 1, 11⟩) ∧
    UtilsUtils.get_prediction_date (toOrdinal ⟨2024, 1, 13⟩) (toOrdinal ⟨2024, 1, 10⟩) none =
      .error (.invalidPredictionDate (toOrdinal ⟨2024, 1, 13⟩) (toOrdinal ⟨2024, 1, 10⟩)) ∧
    UtilsUtils.get_prediction_date (toOrdinal ⟨2024, 1, 11⟩) (toOrdinal ⟨2024, 1, 10⟩) none ≠
      UtilsUtils.get_prediction_date (toOrdinal ⟨2024, 1, 13⟩) (toOrdinal ⟨2024, 1, 10⟩) none := by
  decide

/-- Claim C5 as amended: once the ambient current-date value (the value
`dt.datetime.now().date()` returned in the run, here the explicit `now`
argument) is fixed along with the other inputs, resolution is
deterministic -- any two results of the same call agree -- and total
except for the documented validation failures: the result is a success,
an invalid-date-format error, a too-early (lower-bound) error, or a
too-late (upper-bound) error.  The current date, however, is read from
the global clock inside `get_prediction_date`, not supplied by the
caller, so distinct runs with identical caller-supplied inputs may
disagree (see the counterexample). -/
theorem c5_deterministic_given_clock :
    ∀ (now firstD lastD sl : Nat) (date : Option String)
      (r1 r2 : Except KerasModelsUtils.Err Nat),
      KerasModelsUtils.get_prediction_date now firstD lastD sl date = r1 →
      KerasModelsUtils.get_prediction_date now firstD lastD sl date = r2 →
      r1 = r2 ∧
      ((∃ d, r1 = .ok d) ∨ (∃ s, r1 = .error (.invalidDate s)) ∨
        (∃ p f n, r1 = .error (.invalidPredictionDate p f n true)) ∨
        (∃ p l n, r1 = .error (.invalidPredictionDate p l n false))) := by
  intro now firstD lastD sl date r1 r2 h1 h2
  subst h1
  exact ⟨h2, kerasGPD_classify now firstD lastD sl date⟩

/-- Witness for C5 at concrete inputs: a run with a fixed clock value
and an explicit date string resolves Saturday 2024-01-06 to Monday
2024-01-08 identically. -/
theorem c5_witness :
    (Except.ok (toOrdinal ⟨2024, 1, 8⟩) : Except KerasModelsUtils.Err Nat) =
      .ok (toOrdinal ⟨2024, 1, 8⟩) ∧
    ((∃ d, (Except.ok (toOrdinal ⟨2024, 1, 8⟩) : Except KerasModelsUtils.Err Nat) = .ok d) ∨
      (∃ s, (Except.ok (toOrdinal ⟨2024, 1, 8⟩) : Except KerasModelsUtils.Err Nat) =
        .error (.invalidDate s)) ∨
      (∃ p f n, (Except.ok (toOrdinal ⟨2024, 1, 8⟩) : Except KerasModelsUtils.Err Nat) =
        .error (.invalidPredictionDate p f n true)) ∨
      (∃ p l n, (Except.ok (toOrdinal ⟨2024, 1, 8⟩) : Except KerasModelsUtils.Err Nat) =
        .error (.invalidPredictionDate p l n false))) :=
  c5_deterministic_given_clock (toOrdinal ⟨2024, 1, 5⟩) (toOrdinal ⟨2023, 6, 1⟩)
    (toOrdinal ⟨2024, 1, 5⟩) 30 (some "2024-01-06") (.ok (toOrdinal ⟨2024, 1, 8⟩))
    (.ok (toOrdinal ⟨2024, 1, 8⟩)) (by decide) (by decide)

/-! ### Claim C8 -/

/-- Claim C8 counterexample: a successful resolution of the utils
implementation can return a weekend date.  With `df_last_date` =
Wednesday 2024-01-10, the candidate Sunday 2024-01-07 passes the bound
checks and is returned unchanged, still a Sunday, so the claimed
consequence that every successfully resolved date is a weekday fails on
this implementation. -/
theorem c8_counterexample :
    UtilsUtils.get_correct_pred_date (toOrdinal ⟨2024, 1, 7⟩) (toOrdinal ⟨2024, 1, 10⟩) =
      .ok (toOrdinal ⟨2024, 1, 7⟩) ∧
    weekday (toOrdinal ⟨2024, 1, 7⟩) = 6 := by
  decide

/-- Claim C8 as amended: the weekend snap is idempotent -- it leaves
weekday dates unchanged and snapping a snapped date changes nothing --
and in the keras implementation it is applied exactly once, so every
date returned by a successful keras resolution is a weekday; the utils
implementation has no such general snap and can return a weekend
candidate unchanged (see the counterexample). -/
theorem c8_snap_idempotent :
    (∀ o : Nat, weekday o ≠ 5 → weekday o ≠ 6 → KerasModelsUtils.weekendSnap o = o) ∧
    (∀ o : Nat, KerasModelsUtils.weekendSnap (KerasModelsUtils.weekendSnap o) =
      KerasModelsUtils.weekendSnap o) ∧
    (∀ pred firstD lastD sl r : Nat,
      KerasModelsUtils.get_correct_pred_date pred firstD lastD sl = .ok r →
      r = KerasModelsUtils.weekendSnap pred ∧ weekday r ≠ 5 ∧ weekday r ≠ 6) := by
  refine ⟨?_, ?_, ?_⟩
  · intro o h5 h6
    exact (weekendSnap_eq o).2.2 h5 h6
  · intro o
    unfold KerasModelsUtils.weekendSnap weekday
    split_ifs <;> omega
  · intro pred firstD lastD sl r hok
    have hr := kerasGCPD_ok_snap pred firstD lastD sl r hok
    subst hr
    refine ⟨rfl, ?_, ?_⟩ <;>
    · unfold KerasModelsUtils.weekendSnap weekday
      split_ifs <;> omega

/-- Witness for C8 at concrete inputs: resolving Saturday 2024-01-06
against Friday 2024-01-05 returns Monday 2024-01-08, one snap
application, and the result is a weekday. -/
theorem c8_witness :
    toOrdinal ⟨2024, 1, 8⟩ = KerasModelsUtils.weekendSnap (toOrdinal ⟨2024, 1, 6⟩) ∧
    weekday (toOrdinal ⟨2024, 1, 8⟩) ≠ 5 ∧ weekday (toOrdinal ⟨2024, 1, 8⟩) ≠ 6 :=
  c8_snap_idempotent.2.2 (toOrdinal ⟨2024, 1, 6⟩) (toOrdinal ⟨2023, 6, 1⟩)
    (toOrdinal ⟨2024, 1, 5⟩) 30 (toOrdinal ⟨2024, 1, 8⟩) (by decide)

/-! ### Claim C9 -/

/-- Claim C9: the two implementations of the trading-date resolution
rule disagree.  With candidate Sunday 2023-12-31 and `df_last_date` =
Thursday 2024-01-04, and a keras lower bound that does not fire
(`df_first_date` = 2023-12-01, `seq_len` = 1), the utils implementation
returns the Sunday unchanged while the keras implementation returns
Monday 2024-01-01: both succeed but with different resolved dates. -/
theorem c9_implementations_disagree :
    toOrdinal ⟨2023, 12, 1⟩ + 1 ≤ toOrdinal ⟨2023, 12, 31⟩ ∧
    UtilsUtils.get_correct_pred_date (toOrdinal ⟨2023, 12, 31⟩) (toOrdinal ⟨2024, 1, 4⟩) =
      .ok (toOrdinal ⟨2023, 12, 31⟩) ∧
    KerasModelsUtils.get_correct_pred_date (toOrdinal ⟨2023, 12, 31⟩) (toOrdinal ⟨2023, 12, 1⟩)
      (toOrdinal ⟨2024, 1, 4⟩) 1 = .ok (toOrdinal ⟨2024, 1, 1⟩) ∧
    toOrdinal ⟨2023, 12, 31⟩ ≠ toOrdinal ⟨2024, 1, 1⟩ := by
  decide

/-! ### Claim C10 -/

/-- Claim C10: whenever a successful resolution returns a date
different from the candidate (the case in which the user-facing
adjustment notice is printed by `KerasModel.predict`), the candidate was
a Saturday or a Sunday and the resolved date is the Monday immediately
following it (the next day of weekday 0, at most two days later), so the
fixed `(Monday)` label of the notice is always accurate.  This holds in
both implementations. -/
theorem c10_adjusted_is_monday :
    (∀ pred firstD lastD sl r : Nat,
      KerasModelsUtils.get_correct_pred_date pred firstD lastD sl = .ok r → r ≠ pred →
      (weekday pred = 5 ∨ weekday pred = 6) ∧ weekday r = 0 ∧ pred < r ∧ r ≤ pred + 2) ∧
    (∀ pred lastD r : Nat,
      UtilsUtils.get_correct_pred_date pred lastD = .ok r → r ≠ pred →
      (weekday pred = 5 ∨ weekday pred = 6) ∧ weekday r = 0 ∧ pred < r ∧ r ≤ pred + 2) := by
  constructor
  · intro pred firstD lastD sl r hok hne
    have hr := kerasGCPD_ok_snap pred firstD lastD sl r hok
    subst hr
    unfold KerasModelsUtils.weekendSnap at hne ⊢
    unfold weekday at hne ⊢
    split_ifs at hne ⊢ with h5 h6
    · exact ⟨Or.inl h5, by omega, by omega, by omega⟩
    · exact ⟨Or.inr h6, by omega, by omega, by omega⟩
    · exact absurd rfl hne
  · intro pred lastD r hok hne
    unfold UtilsUtils.get_correct_pred_date at hok
    by_cases hf : weekday lastD = 4
    · rw [if_pos hf] at hok
      by_cases h1 : pred = lastD + 1
      · rw [if_pos h1] at hok
        injection hok with hok
        subst hok
        subst h1
        unfold weekday at hf ⊢
        exact ⟨Or.inl (by omega), by omega, by omega, by omega⟩
      · rw [if_neg h1] at hok
        by_cases h2 : pred = lastD + 2
        · rw [if_pos h2] at hok
          injection hok with hok
          subst hok
          subst h2
          unfold weekday at hf ⊢
          exact ⟨Or.inr (by omega), by omega, by omega, by omega⟩
        · rw [if_neg h2] at hok
          by_cases h3 : pred > lastD + 3
          · rw [if_pos h3] at hok
            exact Except.noConfusion hok
          · rw [if_neg h3] at hok
            injection hok with hok
            exact absurd hok.symm hne
    · rw [if_neg hf] at hok
      by_cases hlt : lastD < pred - 1
      · rw [if_pos hlt] at hok
        exact Except.noConfusion hok
      · rw [if_neg hlt] at hok
        injection hok with hok
        exact absurd hok.symm hne

/-- Witness for C10 at concrete inputs: Saturday 2024-01-06 resolves to
Monday 2024-01-08 in the keras implementation, an adjusted result whose
weekday is Monday. -/
theorem c10_witness :
    (weekday (toOrdinal ⟨2024, 1, 6⟩) = 5 ∨ weekday (toOrdinal ⟨2024, 1, 6⟩) = 6) ∧
    weekday (toOrdinal ⟨2024, 1, 8⟩) = 0 ∧
    toOrdinal ⟨2024, 1, 6⟩ < toOrdinal ⟨2024, 1, 8⟩ ∧
    toOrdinal ⟨2024, 1, 8⟩ ≤ toOrdinal ⟨2024, 1, 6⟩ + 2 :=
  c10_adjusted_is_monday.1 (toOrdinal ⟨2024, 1, 6⟩) (toOrdinal ⟨2023, 6, 1⟩)
    (toOrdinal ⟨2024, 1, 5⟩) 30 (toOrdinal ⟨2024, 1, 8⟩) (by decide) (by decide)

end StockPrediction
